import Mathlib

/-!
Shallow embedding of `gateway/auth.py` (fabric8-analytics-api-gateway):
public-key acquisition (`fetch_public_key`), bearer-token verification
(`decode_token`), the allow-list (`get_whitelist`, `user_whitelisted`) and
the request gate (`login_required`).

External collaborators are abstracted as explicit inputs:
- the outcome of the `requests.get` call is an `HttpResult` value;
- the cryptographic content of a token string (what PyJWT's `jwt.decode`
  sees in it) is a function `String → JwtToken`;
- environment variables and the `configuration` object are records;
- the process-wide caches (`app.public_key`, `app.user_whitelist`) are
  `Option` values threaded explicitly.
-/

/-- Decoded claim set: a Python dict from claim name to value, as an
association list (the claims used by the code are strings). -/
abbrev Claims := List (String × String)

/-- Python `d.get(k, dflt)` on a string-valued dict. -/
def dictGetD (d : Claims) (k dflt : String) : String :=
  match d.find? (fun p => p.1 = k) with
  | some p => p.2
  | none => dflt

/-- Python `str.split(sep)` for a one-character separator, on the character
list: `"".split(',') = ['']`, `"a,,b".split(',') = ['a','','b']`. -/
def splitListAux (sep : Char) : List Char → List (List Char)
  | [] => [[]]
  | c :: cs =>
    match splitListAux sep cs with
    | [] => [[]]
    | g :: gs => if c = sep then [] :: g :: gs else (c :: g) :: gs

/-- Python `str.split(sep)` for a one-character separator. -/
def pySplit (sep : Char) (s : String) : List String :=
  (splitListAux sep s.data).map (fun l => ⟨l⟩)

/-- Outcome of the HTTP GET issued by `fetch_public_key`: a timeout
(`requests.exceptions.Timeout`, the only exception the code catches), a
connection-level failure such as `requests.exceptions.ConnectionError`
(raised by the GET and caught nowhere in `fetch_public_key`), or a
response with a status code and a parsed JSON object body (the declared
interface of the endpoint; string fields suffice). -/
inductive HttpResult where
  | timeout : HttpResult
  | connectionError : HttpResult
  | response (status : Nat) (body : List (String × String)) : HttpResult
deriving DecidableEq, Repr

/-- Python `result.json().get(k, dflt)`. -/
def jsonGet (body : List (String × String)) (k dflt : String) : String :=
  match body.find? (fun p => p.1 = k) with
  | some p => p.2
  | none => dflt

/-- The `configuration` object of `gateway.defaults` together with
`app.config`. `BAYESIAN_FETCH_PUBLIC_KEY = ""` models an unset (falsy)
base URL; `BAYESIAN_PUBLIC_KEY = none` models `app.config.get` returning
Python `None`. -/
structure Config where
  BAYESIAN_FETCH_PUBLIC_KEY : String
  BAYESIAN_PUBLIC_KEY : Option String
  BAYESIAN_JWT_AUDIENCE : String
deriving DecidableEq, Repr

/-- The fixed PEM delimiter lines the code wraps the fetched key in
(`'-----BEGIN PUBLIC KEY-----\n{pkey}\n-----END PUBLIC KEY-----'`). -/
def PEM_HEADER : String := "-----BEGIN PUBLIC KEY-----\n"

/-- Closing PEM delimiter line, with the leading newline of the format
string. -/
def PEM_FOOTER : String := "\n-----END PUBLIC KEY-----"

/-- Exceptions that the modelled calls can raise. `expiredSignature` is
PyJWT's `ExpiredSignatureError` and `invalidToken` its parent class
`InvalidTokenError` (so an `except jwt.InvalidTokenError` handler catches
both); `typeError` is the non-`InvalidTokenError` failure PyJWT hits when
the key is Python `None`; `connectionError` is a network failure of the
GET other than a timeout (`requests.exceptions.ConnectionError` and kin),
which no handler in this module catches by type. -/
inductive PyErr where
  | expiredSignature : PyErr
  | invalidToken (msg : String) : PyErr
  | typeError : PyErr
  | connectionError : PyErr
deriving DecidableEq, Repr

/-- `fetch_public_key(app)` of `gateway/auth.py`. `cached` is the current
`app.public_key` attribute; `net` is the outcome of the GET against the
well-known endpoint (the URL construction `keycloak_url.strip('/') +
'/auth/realms/fabric8/'` only selects the target of that GET and is
absorbed into `net`). Only `requests.exceptions.Timeout` is caught and
turned into the soft return value `''`; any other exception of the GET,
e.g. a `ConnectionError`, propagates out of the function, modelled as
`Except.error`. On normal return the result is the Python return value
(`none` = Python `None`) paired with the updated `app.public_key`. -/
def fetch_public_key (cfg : Config) (cached : Option String) (net : HttpResult) :
    Except PyErr (Option String × Option String) :=
  if cfg.BAYESIAN_FETCH_PUBLIC_KEY ≠ "" then
    match net with
    | .timeout => .ok (some "", cached)
    | .connectionError => .error .connectionError
    | .response status body =>
      if status ≠ 200 then
        .ok (some "", cached)
      else
        let pkey := jsonGet body "public_key" ""
        let pem := PEM_HEADER ++ pkey ++ PEM_FOOTER
        .ok (some pem, some pem)
  else
    .ok (cfg.BAYESIAN_PUBLIC_KEY, cfg.BAYESIAN_PUBLIC_KEY)

/-- The verification-relevant content of a token string: which key its
RS256 signature verifies against, whether its `exp` claim is in the past,
its `aud` claim, and the claim set. -/
structure JwtToken where
  signedWith : String
  expired : Bool
  aud : String
  claims : Claims
deriving DecidableEq, Repr

/-- Model of PyJWT `jwt.decode(token, key, audience=aud)` with signature
verification: a `None` key fails outside the `InvalidTokenError` family;
otherwise the signature is checked against the key, then the `exp` claim,
then the `aud` claim (PyJWT validates `exp` before `aud`). -/
def jwtDecode (tok : JwtToken) (key : Option String) (aud : String) :
    Except PyErr Claims :=
  match key with
  | none => .error .typeError
  | some k =>
    if tok.signedWith = k then
      if tok.expired then
        .error .expiredSignature
      else if tok.aud = aud then
        .ok tok.claims
      else
        .error (.invalidToken "Invalid audience")
    else
      .error (.invalidToken "Signature verification failed")

/-- The `for aud in audiences` loop of `decode_token`: each failure of the
`InvalidTokenError` family (which includes `ExpiredSignatureError`) is
caught and the next audience tried; a success breaks; exhaustion raises
`jwt.InvalidTokenError('Auth token audience cannot be verified.')`. The
`some` wrapper records that a value returned here is never Python `None`. -/
def audienceLoop (tok : JwtToken) (key : Option String) :
    List String → Except PyErr (Option Claims)
  | [] => .error (.invalidToken "Auth token audience cannot be verified.")
  | aud :: rest =>
    match jwtDecode tok key aud with
    | .ok c => .ok (some c)
    | .error .expiredSignature => audienceLoop tok key rest
    | .error (.invalidToken _) => audienceLoop tok key rest
    | .error .typeError => .error .typeError
    | .error .connectionError => .error .connectionError

/-- `token.split(' ', 1)` after `token.startswith('Bearer ')`: the value
after the first space, i.e. the string without its first 7 characters. -/
def stripBearer (s : String) : String :=
  if s.data.take 7 = "Bearer ".data then ⟨s.data.drop 7⟩ else s

/-- `decode_token()` of `gateway/auth.py`. `authHeader` is
`request.headers.get('Authorization')`; `tokenSem` gives the
verification-relevant content of the (possibly Bearer-stripped) token
string. A missing header returns the empty dict `{}` (modelled `some []`,
not Python `None`). An exception raised by `fetch_public_key` propagates
out of `decode_token` unhandled — the only `except` clause here is the
one around `jwt.decode` inside the audience loop. -/
def decode_token (tokenSem : String → JwtToken) (cfg : Config)
    (cachedKey : Option String) (net : HttpResult) (authHeader : Option String) :
    Except PyErr (Option Claims) :=
  match authHeader with
  | none => .ok (some [])
  | some token =>
    let tokenStr := stripBearer token
    match fetch_public_key cfg cachedKey net with
    | .error e => .error e
    | .ok r =>
      let audiences := pySplit ',' cfg.BAYESIAN_JWT_AUDIENCE
      audienceLoop (tokenSem tokenStr) r.1 audiences

/-- Relevant environment variables, `none` = unset. -/
structure Env where
  DISABLE_AUTHENTICATION : Option String
  USER_WHITELIST : Option String
  USER_DOMAIN : Option String
deriving DecidableEq, Repr

/-- `getenv('DISABLE_AUTHENTICATION') in ('1', 'True', 'true')`. -/
def bypassAuth (env : Env) : Bool :=
  match env.DISABLE_AUTHENTICATION with
  | some v => v = "1" ∨ v = "True" ∨ v = "true"
  | none => false

/-- `get_whitelist(app)` of `gateway/auth.py`. `cached` is the current
`app.user_whitelist` attribute (`none` when absent); `getattr(app,
'user_whitelist', '')` is falsy when the attribute is absent or an empty
tuple, and only then is the whitelist recomputed from `USER_WHITELIST`
and `USER_DOMAIN` (default `redhat.com`). Returns the whitelist and the
updated attribute. -/
def get_whitelist (env : Env) (cached : Option (List String)) :
    List String × Option (List String) :=
  let isFalsy := match cached with
    | none => true
    | some wl => wl.isEmpty
  if isFalsy then
    let whitelist_str := env.USER_WHITELIST.getD ""
    let domain := env.USER_DOMAIN.getD "redhat.com"
    let whitelist := (pySplit ',' whitelist_str).map (fun x => x ++ "@" ++ domain)
    (whitelist, some whitelist)
  else
    (cached.getD [], cached)

/-- `F8aUser` of `gateway/auth.py`: a single email attribute. -/
structure F8aUser where
  email : String
deriving DecidableEq, Repr

/-- Python truthiness of an `F8aUser` instance: neither `F8aUser` nor the
`UserMixin` classes it inherits from define `__bool__` or `__len__`, so
every instance is truthy. -/
def F8aUser.truthy (_ : F8aUser) : Bool := true

/-- `user_whitelisted(app, user)` of `gateway/auth.py`: membership of
`user.email` in the whitelist tuple (Python `in`, i.e. string equality
against each entry). Returns the check result and the updated cache. -/
def user_whitelisted (env : Env) (cached : Option (List String)) (user : F8aUser) :
    Bool × Option (List String) :=
  let r := get_whitelist env cached
  (r.1.contains user.email, r.2)

/-- Observable outcome of one run of the `login_required` wrapper:
whether the wrapped view was invoked, the `HTTPError` (status, message)
that was raised if any, and the final `g.current_user` (`none` = the
attribute was never assigned). -/
structure GateResult where
  handlerInvoked : Bool
  error : Option (Nat × String)
  currentUser : Option F8aUser
deriving DecidableEq, Repr

/-- The stage of `login_required` after a successful `decode_token`:
construct `F8aUser(decoded.get('email', 'nobody@nowhere.nodomain'))`,
test its truthiness, and run the whitelist check, assigning
`g.current_user` accordingly. -/
def whitelistStage (env : Env) (cachedWl : Option (List String)) (decoded : Claims) :
    GateResult :=
  let user : F8aUser := ⟨dictGetD decoded "email" "nobody@nowhere.nodomain"⟩
  if user.truthy then
    if (user_whitelisted env cachedWl user).1 then
      { handlerInvoked := true, error := none, currentUser := some user }
    else
      { handlerInvoked := false,
        error := some (401, "User is not whitelisted"),
        currentUser := some ⟨"unauthenticated@no.auth.token"⟩ }
  else
    { handlerInvoked := false,
      error := some (401, "Authentication required"),
      currentUser := some ⟨"unauthenticated@no.auth.token"⟩ }

/-- The `wrapper` closure produced by `login_required(view)` of
`gateway/auth.py`, per request. `except jwt.ExpiredSignatureError` only
fires when `decode_token` propagates that exact exception; every other
exception — a jwt failure, a connection error escaping the key fetch,
or the `HTTPError(401, 'Authentication failed - token missing')` raised
inside the `try` block itself when `decoded is None` — is caught by the
broad `except Exception` handler, which raises the could-not-decode
error. -/
def login_required (tokenSem : String → JwtToken) (cfg : Config) (env : Env)
    (cachedKey : Option String) (cachedWl : Option (List String))
    (net : HttpResult) (authHeader : Option String) : GateResult :=
  if bypassAuth env then
    { handlerInvoked := true, error := none, currentUser := none }
  else
    match decode_token tokenSem cfg cachedKey net authHeader with
    | .error .expiredSignature =>
      { handlerInvoked := false,
        error := some (401, "Authentication failed - token has expired"),
        currentUser := none }
    | .error _ =>
      { handlerInvoked := false,
        error := some (401, "Authentication failed - could not decode JWT token"),
        currentUser := none }
    | .ok none =>
      { handlerInvoked := false,
        error := some (401, "Authentication failed - could not decode JWT token"),
        currentUser := none }
    | .ok (some decoded) => whitelistStage env cachedWl decoded

/-! Concrete instantiations used by the closed theorems below. -/

/-- A token semantics used where the token content is irrelevant. -/
def anyTokenSem : String → JwtToken :=
  fun _ => { signedWith := "", expired := false, aud := "", claims := [] }

/-- Configuration with a static public key and one audience. -/
def cfgStatic : Config :=
  { BAYESIAN_FETCH_PUBLIC_KEY := "", BAYESIAN_PUBLIC_KEY := some "KEY",
    BAYESIAN_JWT_AUDIENCE := "aud1" }

/-- Configuration with a remote identity-provider URL and one audience. -/
def cfgRemote : Config :=
  { BAYESIAN_FETCH_PUBLIC_KEY := "http://keycloak", BAYESIAN_PUBLIC_KEY := none,
    BAYESIAN_JWT_AUDIENCE := "aud1" }

/-- Configuration with a static key and two audiences. -/
def cfgTwoAud : Config :=
  { BAYESIAN_FETCH_PUBLIC_KEY := "", BAYESIAN_PUBLIC_KEY := some "KEY",
    BAYESIAN_JWT_AUDIENCE := "a1,a2" }

/-- All relevant environment variables unset. -/
def envDefault : Env :=
  { DISABLE_AUTHENTICATION := none, USER_WHITELIST := none, USER_DOMAIN := none }

/-- `USER_WHITELIST=alice,bob`, default domain. -/
def envAliceBob : Env :=
  { DISABLE_AUTHENTICATION := none, USER_WHITELIST := some "alice,bob",
    USER_DOMAIN := none }

/-- `DISABLE_AUTHENTICATION=true`. -/
def envBypass : Env :=
  { DISABLE_AUTHENTICATION := some "true", USER_WHITELIST := none,
    USER_DOMAIN := none }

/-- A 200 response whose JSON body carries `public_key = "KEY"`. -/
def netKey : HttpResult := .response 200 [("public_key", "KEY")]

/-- The PEM string `fetch_public_key` builds from `netKey`. -/
def fetchedPem : String := PEM_HEADER ++ "KEY" ++ PEM_FOOTER

/-- A token signed with the fetched key, right audience, but expired. -/
def tokExpired : JwtToken :=
  { signedWith := fetchedPem, expired := true, aud := "aud1",
    claims := [("email", "alice@redhat.com")] }

/-- Token semantics mapping every token string to `tokExpired`. -/
def semExpired : String → JwtToken := fun _ => tokExpired

/-- A token signed with a key other than the resolved one. -/
def tokBadSig : JwtToken :=
  { signedWith := "SOMEOTHERKEY", expired := false, aud := "aud1",
    claims := [("email", "alice@redhat.com")] }

/-- Token semantics mapping every token string to `tokBadSig`. -/
def semBadSig : String → JwtToken := fun _ => tokBadSig

/-- A valid token whose audience is the second configured entry of
`cfgTwoAud`. -/
def tokAud2 : JwtToken :=
  { signedWith := "KEY", expired := false, aud := "a2",
    claims := [("email", "second@redhat.com")] }

/-- Token semantics mapping every token string to `tokAud2`. -/
def semAud2 : String → JwtToken := fun _ => tokAud2

/-! Helper lemmas. -/

/-- The audience loop catches every `InvalidTokenError`, and
`ExpiredSignatureError` is one of them, so it never propagates an
expired-signature failure. -/
theorem audienceLoop_ne_expiredSignature (tok : JwtToken) (key : Option String)
    (auds : List String) :
    audienceLoop tok key auds ≠ Except.error PyErr.expiredSignature := by
  induction auds with
  | nil => simp [audienceLoop]
  | cons a rest ih =>
    unfold audienceLoop
    split
    · simp
    · exact ih
    · exact ih
    · simp
    · simp

/-- The only exception `fetch_public_key` can raise is the uncaught
connection error of the GET. -/
theorem fetch_public_key_error_is_connection (cfg : Config)
    (cached : Option String) (net : HttpResult) (e : PyErr)
    (h : fetch_public_key cfg cached net = Except.error e) :
    e = PyErr.connectionError := by
  by_cases hu : cfg.BAYESIAN_FETCH_PUBLIC_KEY = ""
  · simp [fetch_public_key, hu] at h
  · cases net with
    | timeout => simp [fetch_public_key, hu] at h
    | connectionError =>
      simp only [fetch_public_key, hu, if_neg, ite_not, if_false,
        Except.error.injEq] at h
      exact h.symm
    | response status body =>
      by_cases hs : status = 200
      · simp [fetch_public_key, hu, hs] at h
      · simp [fetch_public_key, hu, hs] at h

/-- `decode_token` never raises `ExpiredSignatureError`. -/
theorem decode_token_ne_expiredSignature (tokenSem : String → JwtToken)
    (cfg : Config) (cachedKey : Option String) (net : HttpResult)
    (authHeader : Option String) :
    decode_token tokenSem cfg cachedKey net authHeader ≠
      Except.error PyErr.expiredSignature := by
  unfold decode_token
  cases authHeader with
  | none => simp
  | some token =>
    cases hf : fetch_public_key cfg cachedKey net with
    | error e =>
      have he := fetch_public_key_error_is_connection cfg cachedKey net e hf
      simp [hf, he]
    | ok r =>
      simp only [hf]
      exact audienceLoop_ne_expiredSignature _ _ _

/-! Claim theorems. -/

/-- C1: the claim says a request with no `Authorization` header is rejected
with 401 "token missing". On the code, `decode_token` returns the empty
dict (not `None`) for a missing header, so the `decoded is None` guard
never fires: the request reaches the whitelist stage as the sentinel
`nobody@nowhere.nodomain` and (under the default configuration) is
rejected with 401 "User is not whitelisted" instead. This theorem
evaluates the code at that failing input. -/
theorem C1_no_auth_header_goes_to_whitelist_check :
    decode_token anyTokenSem cfgStatic none .timeout none =
      .ok (some ([] : Claims)) ∧
    login_required anyTokenSem cfgStatic envDefault none none .timeout none =
      { handlerInvoked := false, error := some (401, "User is not whitelisted"),
        currentUser := some ⟨"unauthenticated@no.auth.token"⟩ } := by
  exact ⟨rfl, by decide⟩

/-- C2: the claim says an expired token is rejected with 401 "token has
expired". On the code, `ExpiredSignatureError` is a subclass of
`InvalidTokenError`, so the audience loop inside `decode_token` swallows
the expiration and raises a plain `InvalidTokenError` instead; the
dedicated expired handler of `login_required` never fires and the request
is rejected with the generic 401 "could not decode JWT token". This
theorem evaluates the code on a token that is validly signed with the
fetched key and carries the configured audience but is expired. -/
theorem C2_expired_token_rejected_as_undecodable :
    tokExpired.expired = true ∧
    fetch_public_key cfgRemote none netKey =
      .ok (some tokExpired.signedWith, some tokExpired.signedWith) ∧
    tokExpired.aud = "aud1" ∧
    login_required semExpired cfgRemote envDefault none none netKey
        (some "Bearer t") =
      { handlerInvoked := false,
        error := some (401, "Authentication failed - could not decode JWT token"),
        currentUser := none } := by
  exact ⟨rfl, rfl, rfl, by decide⟩

/-- C3 counterexample: with authentication enabled, a request whose token
fails to decode (here: signed with a different key) is rejected with 401
while `g.current_user` is never assigned, so the identity is not written
into the per-request context on every outcome, contrary to the claim. -/
theorem C3_decode_failure_counterexample :
    bypassAuth envDefault = false ∧
    (login_required semBadSig cfgStatic envDefault none none .timeout
        (some "Bearer t")).error =
      some (401, "Authentication failed - could not decode JWT token") ∧
    (login_required semBadSig cfgStatic envDefault none none .timeout
        (some "Bearer t")).currentUser = none := by
  exact ⟨rfl, by decide, by decide⟩

/-- C3 amended: with authentication enabled, an identity is written into
`g.current_user` only when the request reaches the whitelist stage — the
resolved user on admission, the sentinel on the not-whitelisted
rejection; requests rejected while decoding the token (all of which
surface as the could-not-decode error) leave `g.current_user` unset. -/
theorem C3_identity_only_at_whitelist_stage (tokenSem : String → JwtToken)
    (cfg : Config) (env : Env) (cachedKey : Option String)
    (cachedWl : Option (List String)) (net : HttpResult)
    (authHeader : Option String) (hb : bypassAuth env = false) :
    ((login_required tokenSem cfg env cachedKey cachedWl net authHeader).currentUser
        = none ↔
      (login_required tokenSem cfg env cachedKey cachedWl net authHeader).error =
        some (401, "Authentication failed - could not decode JWT token")) ∧
    ((login_required tokenSem cfg env cachedKey cachedWl net authHeader).error =
        some (401, "User is not whitelisted") →
      (login_required tokenSem cfg env cachedKey cachedWl net authHeader).currentUser
        = some ⟨"unauthenticated@no.auth.token"⟩) := by
  cases hd : decode_token tokenSem cfg cachedKey net authHeader with
  | error e =>
    cases e with
    | expiredSignature =>
      exact absurd hd (decode_token_ne_expiredSignature _ _ _ _ _)
    | invalidToken m => simp [login_required, hb, hd]
    | typeError => simp [login_required, hb, hd]
    | connectionError => simp [login_required, hb, hd]
  | ok o =>
    cases o with
    | none => simp [login_required, hb, hd]
    | some d =>
      by_cases hw :
        (user_whitelisted env cachedWl
          ⟨dictGetD d "email" "nobody@nowhere.nodomain"⟩).1
      · simp [login_required, hb, hd, whitelistStage, F8aUser.truthy, hw]
      · simp [login_required, hb, hd, whitelistStage, F8aUser.truthy, hw]

/-- Witness for the amended C3 at a concrete input: a request with no
`Authorization` header under the default environment. -/
theorem C3_identity_only_at_whitelist_stage_witness :
    ((login_required anyTokenSem cfgStatic envDefault none none .timeout
        none).currentUser = none ↔
      (login_required anyTokenSem cfgStatic envDefault none none .timeout
        none).error =
        some (401, "Authentication failed - could not decode JWT token")) ∧
    ((login_required anyTokenSem cfgStatic envDefault none none .timeout
        none).error = some (401, "User is not whitelisted") →
      (login_required anyTokenSem cfgStatic envDefault none none .timeout
        none).currentUser = some ⟨"unauthenticated@no.auth.token"⟩) :=
  C3_identity_only_at_whitelist_stage anyTokenSem cfgStatic envDefault none none
    .timeout none (by decide)

/-- C4 counterexample: the claim says `fetch_public_key` returns the empty
string rather than raising on every network problem, but the code catches
only `requests.exceptions.Timeout`: on a connection-level failure of the
GET the exception propagates out of `fetch_public_key` instead of the
function returning the empty string. -/
theorem C4_connection_error_counterexample :
    fetch_public_key cfgRemote none .connectionError =
      .error .connectionError := rfl

/-- C4 amended: with a remote identity-provider URL configured,
`fetch_public_key` fails soft exactly for the network problems the code
handles — it returns the empty string when the GET times out and when
the endpoint responds with a non-200 status — while any other network
failure of the GET (e.g. a connection error) is not caught and
propagates as an exception. -/
theorem C4_fetch_public_key_fails_soft (cfg : Config) (cached : Option String)
    (status : Nat) (body : List (String × String))
    (hurl : cfg.BAYESIAN_FETCH_PUBLIC_KEY ≠ "") (hs : status ≠ 200) :
    fetch_public_key cfg cached .timeout = .ok (some "", cached) ∧
    fetch_public_key cfg cached (.response status body) = .ok (some "", cached) ∧
    fetch_public_key cfg cached .connectionError = .error .connectionError := by
  refine ⟨?_, ?_, ?_⟩
  · simp [fetch_public_key, hurl]
  · simp [fetch_public_key, hurl, hs]
  · simp [fetch_public_key, hurl]

/-- Witness for the amended C4 at a concrete input: the remote
configuration with a timeout, a 404 response and a connection failure. -/
theorem C4_fetch_public_key_fails_soft_witness :
    fetch_public_key cfgRemote none .timeout = .ok (some "", none) ∧
    fetch_public_key cfgRemote none (.response 404 []) = .ok (some "", none) ∧
    fetch_public_key cfgRemote none .connectionError = .error .connectionError :=
  C4_fetch_public_key_fails_soft cfgRemote none 404 [] (by decide) (by decide)

/-- C5: `decode_token` tries the comma-separated audiences of
`BAYESIAN_JWT_AUDIENCE` in the listed order and adopts the first audience
that verifies; a validly signed, unexpired token whose `aud` claim is the
second of two configured audiences is successfully verified, and a
success at the head audience ends the loop with that claim set no matter
what audiences follow. -/
theorem C5_second_audience_success (tokenSem : String → JwtToken) (cfg : Config)
    (cachedKey : Option String) (net : HttpResult) (hdr : String)
    (tok : JwtToken) (k : String) (a1 a2 : String)
    (tok2 : JwtToken) (k2 aud2 : String) (rest : List String) (c : Claims)
    (ck : Option String)
    (hsem : tokenSem (stripBearer hdr) = tok)
    (hkey : fetch_public_key cfg cachedKey net = .ok (some k, ck))
    (hsig : tok.signedWith = k)
    (hexp : tok.expired = false)
    (haud : tok.aud = a2)
    (hauds : pySplit ',' cfg.BAYESIAN_JWT_AUDIENCE = [a1, a2])
    (hfirst : jwtDecode tok2 (some k2) aud2 = .ok c) :
    decode_token tokenSem cfg cachedKey net (some hdr) = .ok (some tok.claims) ∧
    audienceLoop tok2 (some k2) (aud2 :: rest) = .ok (some c) := by
  constructor
  · unfold decode_token
    rw [hkey]
    show audienceLoop (tokenSem (stripBearer hdr)) (some k)
      (pySplit ',' cfg.BAYESIAN_JWT_AUDIENCE) = .ok (some tok.claims)
    rw [hsem, hauds]
    by_cases ha : tok.aud = a1
    · have h1 : jwtDecode tok (some k) a1 = .ok tok.claims := by
        simp [jwtDecode, hsig, hexp, ha]
      simp [audienceLoop, h1]
    · have h1 : jwtDecode tok (some k) a1 =
          .error (.invalidToken "Invalid audience") := by
        simp [jwtDecode, hsig, hexp, ha]
      have h2 : jwtDecode tok (some k) a2 = .ok tok.claims := by
        simp [jwtDecode, hsig, hexp, haud]
      simp [audienceLoop, h1, h2]
  · simp [audienceLoop, hfirst]

/-- Witness for C5 at a concrete input: audiences `a1,a2` and a valid
token for `a2`. -/
theorem C5_second_audience_success_witness :
    decode_token semAud2 cfgTwoAud none .timeout (some "Bearer t") =
      .ok (some tokAud2.claims) ∧
    audienceLoop tokAud2 (some "KEY") ("a2" :: []) = .ok (some tokAud2.claims) :=
  C5_second_audience_success semAud2 cfgTwoAud none .timeout "Bearer t"
    tokAud2 "KEY" "a1" "a2" tokAud2 "KEY" "a2" [] tokAud2.claims (some "KEY")
    rfl rfl rfl rfl rfl (by decide) rfl

/-- C6: when `DISABLE_AUTHENTICATION` is `1`, `True` or `true`, every
request — with or without a token — is admitted, the wrapped handler is
invoked, and no identity is resolved into the request context; the
result does not depend on the token, the key or the network. -/
theorem C6_disable_authentication_admits_all (tokenSem : String → JwtToken)
    (cfg : Config) (env : Env) (cachedKey : Option String)
    (cachedWl : Option (List String)) (net : HttpResult)
    (authHeader : Option String)
    (henv : env.DISABLE_AUTHENTICATION = some "1" ∨
      env.DISABLE_AUTHENTICATION = some "True" ∨
      env.DISABLE_AUTHENTICATION = some "true") :
    login_required tokenSem cfg env cachedKey cachedWl net authHeader =
      { handlerInvoked := true, error := none, currentUser := none } := by
  have hb : bypassAuth env = true := by
    unfold bypassAuth
    rcases henv with h | h | h <;> rw [h] <;> rfl
  unfold login_required
  rw [hb]
  simp

/-- Witness for C6 at a concrete input: `DISABLE_AUTHENTICATION=true` and
a request with no token. -/
theorem C6_disable_authentication_admits_all_witness :
    login_required anyTokenSem cfgStatic envBypass none none .timeout none =
      { handlerInvoked := true, error := none, currentUser := none } :=
  C6_disable_authentication_admits_all anyTokenSem cfgStatic envBypass none none
    .timeout none (Or.inr (Or.inr rfl))

/-- C7: with `USER_WHITELIST=alice,bob` and the default domain, the
whitelist check accepts `alice@redhat.com` and rejects
`carol@redhat.com`; in general the check is exact string membership of
the identity's email attribute in the computed whitelist. -/
theorem C7_whitelist_membership :
    (user_whitelisted envAliceBob none ⟨"alice@redhat.com"⟩).1 = true ∧
    (user_whitelisted envAliceBob none ⟨"carol@redhat.com"⟩).1 = false ∧
    ∀ (env : Env) (cached : Option (List String)) (u : F8aUser),
      ((user_whitelisted env cached u).1 = true ↔
        u.email ∈ (get_whitelist env cached).1) := by
  refine ⟨by decide, by decide, ?_⟩
  intro env cached u
  unfold user_whitelisted
  simp

/-- C8: when `USER_WHITELIST` is unset or empty (and no whitelist tuple is
cached yet), the computed whitelist is the single degenerate entry
consisting of the empty local-part joined with the domain, i.e.
`"@" ++ domain`. -/
theorem C8_empty_whitelist_degenerate_entry (env : Env)
    (cached : Option (List String))
    (hwl : env.USER_WHITELIST = none ∨ env.USER_WHITELIST = some "")
    (hc : cached = none ∨ cached = some []) :
    (get_whitelist env cached).1 = ["@" ++ env.USER_DOMAIN.getD "redhat.com"] := by
  have hstr : env.USER_WHITELIST.getD "" = "" := by
    rcases hwl with h | h <;> rw [h] <;> rfl
  have hps : pySplit ',' "" = [""] := by decide
  have hat : ("" ++ "@" : String) = "@" := rfl
  unfold get_whitelist
  rcases hc with h | h <;> rw [h] <;> simp [hstr, hps, hat]

/-- Witness for C8 at a concrete input: all environment variables unset
and no cached whitelist. -/
theorem C8_empty_whitelist_degenerate_entry_witness :
    (get_whitelist envDefault none).1 =
      ["@" ++ envDefault.USER_DOMAIN.getD "redhat.com"] :=
  C8_empty_whitelist_degenerate_entry envDefault none (Or.inl rfl) (Or.inl rfl)

/-- C9: every `F8aUser` instance is truthy, and the possible outcomes of
`login_required` are admission or one of the three 401 rejections below
(expired, could-not-decode, not-whitelisted); in particular the
`Authentication required` rejection branch guarded by `if user:` is
unreachable, since the freshly constructed `F8aUser` is always truthy. -/
theorem C9_authentication_required_unreachable (tokenSem : String → JwtToken)
    (cfg : Config) (env : Env) (cachedKey : Option String)
    (cachedWl : Option (List String)) (net : HttpResult)
    (authHeader : Option String) :
    (∀ u : F8aUser, u.truthy = true) ∧
    (login_required tokenSem cfg env cachedKey cachedWl net authHeader).error ∈
      ([none, some (401, "Authentication failed - token has expired"),
        some (401, "Authentication failed - could not decode JWT token"),
        some (401, "User is not whitelisted")] : List (Option (Nat × String))) := by
  refine ⟨fun u => rfl, ?_⟩
  unfold login_required
  split
  · simp
  · split
    · simp
    · simp
    · simp
    · unfold whitelistStage
      simp only [F8aUser.truthy, if_true]
      split <;> simp

/-- C10: for every 200 response from the remote key endpoint,
`fetch_public_key` returns the PEM header, the `public_key` field of the
body (defaulting to the empty string when absent) and the PEM footer —
a string of positive length, never the empty string; in particular a
body with no `public_key` field yields the bare header/footer pair. -/
theorem C10_status_200_nonempty_pem (cfg : Config) (cached : Option String)
    (body : List (String × String))
    (hurl : cfg.BAYESIAN_FETCH_PUBLIC_KEY ≠ "") :
    fetch_public_key cfg cached (.response 200 body) =
      .ok (some (PEM_HEADER ++ jsonGet body "public_key" "" ++ PEM_FOOTER),
        some (PEM_HEADER ++ jsonGet body "public_key" "" ++ PEM_FOOTER)) ∧
    0 < (PEM_HEADER ++ jsonGet body "public_key" "" ++ PEM_FOOTER).length ∧
    fetch_public_key cfg cached (.response 200 ([] : List (String × String))) =
      .ok (some (PEM_HEADER ++ "" ++ PEM_FOOTER),
        some (PEM_HEADER ++ "" ++ PEM_FOOTER)) := by
  refine ⟨?_, ?_, ?_⟩
  · simp [fetch_public_key, hurl]
  · have h27 : PEM_HEADER.length = 27 := rfl
    rw [String.length_append, String.length_append, h27]
    omega
  · simp [fetch_public_key, hurl, jsonGet]

/-- Witness for C10 at a concrete input: the remote configuration with a
200 response carrying `public_key = "KEY"`. -/
theorem C10_status_200_nonempty_pem_witness :
    fetch_public_key cfgRemote none (.response 200 [("public_key", "KEY")]) =
      .ok (some (PEM_HEADER ++ jsonGet [("public_key", "KEY")] "public_key" ""
          ++ PEM_FOOTER),
        some (PEM_HEADER ++ jsonGet [("public_key", "KEY")] "public_key" ""
          ++ PEM_FOOTER)) ∧
    0 < (PEM_HEADER ++ jsonGet [("public_key", "KEY")] "public_key" "" ++
        PEM_FOOTER).length ∧
    fetch_public_key cfgRemote none
        (.response 200 ([] : List (String × String))) =
      .ok (some (PEM_HEADER ++ "" ++ PEM_FOOTER),
        some (PEM_HEADER ++ "" ++ PEM_FOOTER)) :=
  C10_status_200_nonempty_pem cfgRemote none [("public_key", "KEY")] (by decide)
